import Mathlib

/-!
Shallow embedding of `src/app.py` (a Flask front-end over a retrieval-augmented
question-answering pipeline).

Modelling choices:
* File modification times and the cached build timestamp are Python floats in
  the source; they are modelled as rationals (`ℚ`), which share the relevant
  structure (a linear order with arbitrary sign, exact `str`/`float`
  round-trip for values the program itself writes).
* A directory entry is either a regular file (with an mtime) or a
  subdirectory (with its own entries); `os.listdir` + `os.path.isfile`
  correspond to listing the entries and keeping the `file` ones.
* The persistence folder `storage/` is modelled by `Option PersistDir`:
  `none` when `os.path.isdir(PERSIST_DIR)` is false.  The marker file
  `storage/.last_built` lives inside it, so it can only exist when the folder
  does; its content either parses as a float (`FileContent.num`) or does not
  (`FileContent.raw`), mirroring `float(f.read().strip())` succeeding or
  raising.
* The external llama-index library is abstracted: an `Index` is the list of
  documents it was built from (`VectorStoreIndex.from_documents` over
  `SimpleDirectoryReader(DATA_DIR).load_data()`), and a query engine wraps an
  index with the `"compact"` response mode.  The outcome of
  `query_engine.query(question)` (an external LLM call) is supplied as an
  oracle parameter: it either returns an answer or raises an exception with a
  message.
* `load_index_from_storage` raises when no index has been persisted; this and
  any other propagating exception is the `Except.error` case.  Python
  evaluates the right-hand side of an assignment before assigning, so a raise
  leaves the globals unchanged.
* The spec verifies "must not rebuild" via a stub build counter; the state
  carries `buildCount`, incremented exactly by `_build_and_persist_index`.
-/

/-- One entry of a directory listing: a regular file with its modification
time, or a subdirectory with its own entries. -/
inductive Entry where
  | file (name : String) (mtime : ℚ)
  | dir (name : String) (children : List Entry)

/-- Predicate `os.path.isfile` on a directory entry. -/
def Entry.isFile : Entry → Bool
  | .file _ _ => true
  | .dir _ _ => false

/-- Accessor `os.path.getmtime` on an entry; only ever used on entries that passed the
`isFile` filter. -/
def Entry.mtime : Entry → ℚ
  | .file _ t => t
  | .dir _ _ => 0

/-- Content of the `.last_built` marker file: text that `float(...)` parses
(to `v`), or text on which `float(...)` raises. -/
inductive FileContent where
  | num (v : ℚ)
  | raw (s : String)

/-- An `Index` abstracts `VectorStoreIndex`: it remembers the documents it was
built from. -/
structure Index where
  docs : List Entry

/-- A query engine wraps an index; `as_query_engine(response_mode="compact")`. -/
structure QueryEngine where
  index : Index
  response_mode : String

/-- The persistence folder `storage/`: the `.last_built` marker file (if
present) and the serialized index (if one was persisted). -/
structure PersistDir where
  marker : Option FileContent
  index : Option Index

/-- The whole state `get_index_and_engine` can see: the `data/` folder (or
`none` if missing), the `storage/` folder (or `none` if missing), the two
module-level globals `_index` and `_query_engine`, and the stub build counter
the spec uses to observe rebuilds. -/
structure AppState where
  dataDir : Option (List Entry)
  persistDir : Option PersistDir
  _index : Option Index
  _query_engine : Option QueryEngine
  buildCount : Nat

/-- Function `_latest_mtime(folder)`: 0.0 if the folder is missing, else the `max` of
the mtimes of the regular files directly inside it, 0.0 if there are none. -/
def _latest_mtime (folder : Option (List Entry)) : ℚ :=
  match folder with
  | none => 0
  | some entries =>
    match (entries.filter Entry.isFile).map Entry.mtime with
    | [] => 0
    | t :: ts => ts.foldl max t

/-- Test `os.path.exists(CHECK_FILE)`: the marker file exists. -/
def checkFileExists (s : AppState) : Bool :=
  match s.persistDir with
  | none => false
  | some pd => pd.marker.isSome

/-- Function `_read_cached_build_time()`: 0.0 if the marker file does not exist;
otherwise `float` of its content, with any exception giving 0.0. -/
def _read_cached_build_time (s : AppState) : ℚ :=
  match s.persistDir with
  | none => 0
  | some pd =>
    match pd.marker with
    | none => 0
    | some (.num v) => v
    | some (.raw _) => 0

/-- Function `_write_cached_build_time(ts)`: `os.makedirs(PERSIST_DIR, exist_ok=True)`
then write `str(ts)` to the marker file (`float(str(ts))` recovers `ts`). -/
def _write_cached_build_time (s : AppState) (ts : ℚ) : AppState :=
  let pd := s.persistDir.getD ⟨none, none⟩
  { s with persistDir := some { pd with marker := some (.num ts) } }

/-- Call `SimpleDirectoryReader(DATA_DIR).load_data()`: the regular files directly
inside the data folder (the reader is non-recursive by default). -/
def load_data (folder : Option (List Entry)) : List Entry :=
  (folder.getD []).filter Entry.isFile

/-- Function `_build_and_persist_index()`: load the documents, build the index, persist
it into the storage folder, record the current newest data mtime, bump the
stub build counter, and return the index. -/
def _build_and_persist_index (s : AppState) : Index × AppState :=
  let documents := load_data s.dataDir
  let index : Index := ⟨documents⟩
  let pd := s.persistDir.getD ⟨none, none⟩
  let s := { s with persistDir := some { pd with index := some index },
                    buildCount := s.buildCount + 1 }
  let s := _write_cached_build_time s (_latest_mtime s.dataDir)
  (index, s)

/-- Function `_load_index_from_disk()`: the persisted index, if any;
`load_index_from_storage` raises when there is none. -/
def _load_index_from_disk (s : AppState) : Option Index :=
  s.persistDir.bind PersistDir.index

/-- Call `index.as_query_engine(response_mode="compact")`. -/
def as_query_engine (ix : Index) : QueryEngine :=
  ⟨ix, "compact"⟩

/-- Function `get_index_and_engine()`: reuse the in-memory pair if fresh, else load the
persisted index if fresh, else rebuild (or expose `(None, None)` when there is
no data).  The `Except.error` case is a propagating exception
(`load_index_from_storage` on an empty storage folder); it occurs before the
assignment to `_index`, so the state is returned unchanged. -/
def get_index_and_engine (s : AppState) :
    Except Unit (Option Index × Option QueryEngine) × AppState :=
  let data_mtime := _latest_mtime s.dataDir
  let cached_mtime := _read_cached_build_time s
  if s._index.isSome ∧ data_mtime ≤ cached_mtime then
    (.ok (s._index, s._query_engine), s)
  else if s.persistDir.isSome ∧ checkFileExists s ∧ data_mtime ≤ cached_mtime then
    match _load_index_from_disk s with
    | none => (.error (), s)
    | some ix =>
      let s := { s with _index := some ix,
                        _query_engine := some (as_query_engine ix) }
      (.ok (s._index, s._query_engine), s)
  else
    if s.dataDir.isNone ∨ _latest_mtime s.dataDir = 0 then
      (.ok (none, none), { s with _index := none, _query_engine := none })
    else
      let (ix, s) := _build_and_persist_index s
      let s := { s with _index := some ix,
                        _query_engine := some (as_query_engine ix) }
      (.ok (s._index, s._query_engine), s)

/-- A transcript entry: one question/answer pair. -/
structure QA where
  q : String
  a : String

/-- Outcome of `query_engine.query(question)` (external LLM call): an answer,
or a raised exception rendered as the message `str(e)`. -/
inductive QueryResult where
  | ok (answer : String)
  | exn (msg : String)

/-- HTTP method of the request. -/
inductive Method where
  | GET
  | POST

/-- The handler's response: a redirect back to the page, or the rendered
transcript page. -/
inductive Response where
  | redirect
  | page (chat_history : List QA)

/-- Python's `str.strip()`: remove leading and trailing whitespace. -/
def strip (s : String) : String :=
  ⟨(((s.data.dropWhile Char.isWhitespace).reverse).dropWhile Char.isWhitespace).reverse⟩

/-- The `home` route.  `oracle` supplies the outcome of the external
`query_engine.query` call; `form_question` is `request.form.get("question")`;
`sess` is the session's `chat_history` slot (absent or a list).  Returns the
response (or a propagated exception from `get_index_and_engine`), the new
application state, and the new `chat_history` slot. -/
def home (oracle : QueryEngine → String → QueryResult) (method : Method)
    (form_question : Option String) (s : AppState) (sess : Option (List QA)) :
    Except Unit Response × AppState × Option (List QA) :=
  let res := get_index_and_engine s
  match res.1 with
  | .error e => (.error e, res.2, sess)
  | .ok (_, query_engine) =>
    let hist := sess.getD []
    match method with
    | .GET => (.ok (.page hist), res.2, some hist)
    | .POST =>
      let question := strip (form_question.getD "")
      if question = "" then
        (.ok .redirect, res.2, some hist)
      else
        let answer :=
          match query_engine with
          | none => "No data found in /data folder. Add files and refresh."
          | some qe =>
            match oracle qe question with
            | .ok a => a
            | .exn m => "Query error: " ++ m
        (.ok .redirect, res.2, some (hist ++ [⟨question, answer⟩]))

/-! ## Helper lemmas about `List.foldl max` (Python's `max` on a non-empty list) -/

lemma foldl_max_mem (t : ℚ) (ts : List ℚ) :
    ts.foldl max t = t ∨ ts.foldl max t ∈ ts := by
  induction ts generalizing t with
  | nil => exact Or.inl rfl
  | cons y ys ih =>
    rcases ih (max t y) with h | h
    · rcases max_choice t y with h2 | h2
      · left; rw [List.foldl_cons, h]; exact h2
      · right; rw [List.foldl_cons, h, h2]; exact List.mem_cons_self y ys
    · exact Or.inr (List.mem_cons_of_mem _ h)

lemma le_foldl_max (t : ℚ) (ts : List ℚ) :
    t ≤ ts.foldl max t ∧ ∀ x ∈ ts, x ≤ ts.foldl max t := by
  induction ts generalizing t with
  | nil => exact ⟨le_refl t, by simp⟩
  | cons y ys ih =>
    obtain ⟨h1, h2⟩ := ih (max t y)
    refine ⟨le_trans (le_max_left t y) h1, ?_⟩
    intro x hx
    rcases List.mem_cons.mp hx with hx | hx
    · subst hx; exact le_trans (le_max_right t x) h1
    · exact h2 x hx

/-! ## Claim theorems -/

/-- C3: `_latest_mtime` returns 0 when the folder is missing or contains no
files, and otherwise returns the maximum of the modification times of its
files (an mtime of one of them, bounding all of them from above). -/
theorem latest_mtime_spec (folder : Option (List Entry)) :
    (folder = none → _latest_mtime folder = 0) ∧
    (∀ L, folder = some L → L.filter Entry.isFile = [] → _latest_mtime folder = 0) ∧
    (∀ L, folder = some L → L.filter Entry.isFile ≠ [] →
      _latest_mtime folder ∈ (L.filter Entry.isFile).map Entry.mtime ∧
      ∀ t ∈ (L.filter Entry.isFile).map Entry.mtime, t ≤ _latest_mtime folder) := by
  refine ⟨?_, ?_, ?_⟩
  · intro h; subst h; rfl
  · intro L hL hfil; subst hL; simp [_latest_mtime, hfil]
  · intro L hL hne; subst hL
    simp only [_latest_mtime]
    cases hm : (L.filter Entry.isFile).map Entry.mtime with
    | nil =>
      exact absurd (List.map_eq_nil_iff.mp hm) hne
    | cons t ts =>
      constructor
      · rcases foldl_max_mem t ts with h | h
        · simp [h]
        · exact List.mem_cons_of_mem _ h
      · intro x hx
        rcases List.mem_cons.mp hx with hx | hx
        · subst hx; exact (le_foldl_max x ts).1
        · exact (le_foldl_max t ts).2 x hx

/-- Witness for C3 at a concrete two-file folder. -/
theorem latest_mtime_spec_witness :
    _latest_mtime (some [Entry.file "a" 3, Entry.file "b" 7]) ∈
      (([Entry.file "a" 3, Entry.file "b" 7].filter Entry.isFile).map Entry.mtime) ∧
    _latest_mtime none = 0 :=
  ⟨((latest_mtime_spec (some [Entry.file "a" 3, Entry.file "b" 7])).2.2
      [Entry.file "a" 3, Entry.file "b" 7] rfl (List.cons_ne_nil _ _)).1,
   (latest_mtime_spec none).1 rfl⟩

/-- C9: `_latest_mtime` looks only at regular files directly inside the folder:
replacing the contents of a subdirectory entry (in particular, modifying or
adding a file nested inside it) never changes the result, and the result only
depends on the `isFile` entries of the listing. -/
theorem latest_mtime_ignores_subdirs (pre post c c' : List Entry) (n : String)
    (L : List Entry) :
    _latest_mtime (some (pre ++ Entry.dir n c :: post)) =
      _latest_mtime (some (pre ++ Entry.dir n c' :: post)) ∧
    _latest_mtime (some L) = _latest_mtime (some (L.filter Entry.isFile)) := by
  constructor
  · simp [_latest_mtime, List.filter_append, Entry.isFile]
  · simp [_latest_mtime, List.filter_filter]

/-- C4: writing the build timestamp and then reading it back yields the same
value, given the persistence folder exists. -/
theorem write_read_roundtrip (s : AppState) (ts : ℚ)
    (h : s.persistDir.isSome = true) :
    _read_cached_build_time (_write_cached_build_time s ts) = ts := by
  simp [_read_cached_build_time, _write_cached_build_time]

/-- Witness for C4 at a concrete state whose persistence folder exists. -/
theorem write_read_roundtrip_witness :
    _read_cached_build_time
      (_write_cached_build_time ⟨none, some ⟨none, none⟩, none, none, 0⟩ 5) = 5 :=
  write_read_roundtrip ⟨none, some ⟨none, none⟩, none, none, 0⟩ 5 rfl

/-- C5: `_read_cached_build_time` is a total function returning 0 both when the
marker file is absent and when its contents do not parse as a number. -/
theorem read_cached_degrades_safely (s : AppState) :
    (checkFileExists s = false → _read_cached_build_time s = 0) ∧
    (∀ pd junk, s.persistDir = some pd → pd.marker = some (.raw junk) →
      _read_cached_build_time s = 0) := by
  constructor
  · intro h
    cases hp : s.persistDir with
    | none => simp [_read_cached_build_time, hp]
    | some pd =>
      cases hm : pd.marker with
      | none => simp [_read_cached_build_time, hp, hm]
      | some c =>
        exfalso
        simp [checkFileExists, hp, hm] at h
  · intro pd junk hp hm
    simp [_read_cached_build_time, hp, hm]

/-- Witness for C5: an absent marker and a corrupt marker both read as 0. -/
theorem read_cached_degrades_safely_witness :
    _read_cached_build_time ⟨none, none, none, none, 0⟩ = 0 ∧
    _read_cached_build_time
      ⟨none, some ⟨some (.raw "oops"), none⟩, none, none, 0⟩ = 0 :=
  ⟨(read_cached_degrades_safely ⟨none, none, none, none, 0⟩).1 rfl,
   (read_cached_degrades_safely ⟨none, some ⟨some (.raw "oops"), none⟩, none, none, 0⟩).2
     ⟨some (.raw "oops"), none⟩ "oops" rfl rfl⟩

/-! ## Branch characterizations of `get_index_and_engine` -/

/-- Case 1: a fresh in-memory index is reused, nothing changes. -/
lemma get_eq_memo (s : AppState) (h1 : s._index.isSome = true)
    (h2 : _latest_mtime s.dataDir ≤ _read_cached_build_time s) :
    get_index_and_engine s = (.ok (s._index, s._query_engine), s) := by
  simp [get_index_and_engine, h1, h2]

/-- Case 2, failing: fresh persisted marker but nothing persisted, the load
raises and the state is unchanged. -/
lemma get_eq_load_none (s : AppState)
    (hA : ¬(s._index.isSome = true ∧
        _latest_mtime s.dataDir ≤ _read_cached_build_time s))
    (hB : s.persistDir.isSome = true ∧ checkFileExists s = true ∧
        _latest_mtime s.dataDir ≤ _read_cached_build_time s)
    (h5 : _load_index_from_disk s = none) :
    get_index_and_engine s = (.error (), s) := by
  simp only [get_index_and_engine]
  rw [if_neg hA, if_pos hB, h5]

/-- Case 2, succeeding: the persisted index is loaded and wrapped. -/
lemma get_eq_load_some (s : AppState) (ix : Index)
    (hA : ¬(s._index.isSome = true ∧
        _latest_mtime s.dataDir ≤ _read_cached_build_time s))
    (hB : s.persistDir.isSome = true ∧ checkFileExists s = true ∧
        _latest_mtime s.dataDir ≤ _read_cached_build_time s)
    (h5 : _load_index_from_disk s = some ix) :
    get_index_and_engine s =
      (.ok (some ix, some (as_query_engine ix)),
        { s with _index := some ix, _query_engine := some (as_query_engine ix) }) := by
  simp only [get_index_and_engine]
  rw [if_neg hA, if_pos hB, h5]

/-- Case 3, no data: the pair is reset to `(None, None)`, no build happens. -/
lemma get_eq_nodata (s : AppState)
    (hA : ¬(s._index.isSome = true ∧
        _latest_mtime s.dataDir ≤ _read_cached_build_time s))
    (hB : ¬(s.persistDir.isSome = true ∧ checkFileExists s = true ∧
        _latest_mtime s.dataDir ≤ _read_cached_build_time s))
    (hC : s.dataDir.isNone = true ∨ _latest_mtime s.dataDir = 0) :
    get_index_and_engine s =
      (.ok (none, none), { s with _index := none, _query_engine := none }) := by
  simp only [get_index_and_engine]
  rw [if_neg hA, if_neg hB, if_pos hC]

/-- Case 3, rebuild: the index is rebuilt from the data folder, persisted, the
marker records the newest data mtime, and the build counter goes up by one. -/
lemma get_eq_build (s : AppState)
    (hA : ¬(s._index.isSome = true ∧
        _latest_mtime s.dataDir ≤ _read_cached_build_time s))
    (hB : ¬(s.persistDir.isSome = true ∧ checkFileExists s = true ∧
        _latest_mtime s.dataDir ≤ _read_cached_build_time s))
    (hC : ¬(s.dataDir.isNone = true ∨ _latest_mtime s.dataDir = 0)) :
    get_index_and_engine s =
      (.ok (some ⟨load_data s.dataDir⟩,
            some (as_query_engine ⟨load_data s.dataDir⟩)),
        ⟨s.dataDir,
         some ⟨some (.num (_latest_mtime s.dataDir)), some ⟨load_data s.dataDir⟩⟩,
         some ⟨load_data s.dataDir⟩,
         some (as_query_engine ⟨load_data s.dataDir⟩),
         s.buildCount + 1⟩) := by
  simp only [get_index_and_engine]
  rw [if_neg hA, if_neg hB, if_neg hC]
  simp [_build_and_persist_index, _write_cached_build_time]

/-- If the marker file does not exist (in particular whenever the storage
folder is missing), the cached build time reads as 0. -/
lemma read_eq_zero_of_no_marker (s : AppState)
    (h : ¬(s.persistDir.isSome = true ∧ checkFileExists s = true ∧
        _latest_mtime s.dataDir ≤ _read_cached_build_time s))
    (hle : _latest_mtime s.dataDir ≤ _read_cached_build_time s) :
    _read_cached_build_time s = 0 := by
  cases hp : s.persistDir with
  | none => simp [_read_cached_build_time, hp]
  | some pd =>
    cases hm : pd.marker with
    | none => simp [_read_cached_build_time, hp, hm]
    | some c =>
      exact absurd ⟨by simp [hp], by simp [checkFileExists, hp, hm], hle⟩ h

/-- A missing data folder has newest mtime 0. -/
lemma latest_of_none (s : AppState) (h : s.dataDir.isNone = true) :
    _latest_mtime s.dataDir = 0 := by
  cases hd : s.dataDir with
  | none => rfl
  | some L => rw [hd] at h; simp at h

/-- A state with a single pre-epoch file (mtime −5, a legal float mtime) and
no storage folder. -/
def staleStateA : AppState := ⟨some [Entry.file "a" (-5)], none, none, none, 0⟩

/-- C1 counterexample: at `staleStateA` the newest data mtime (−5) is at most
the cached build time (0, no marker), yet `get_index_and_engine` takes the
build-and-persist path and the build counter goes up. -/
theorem get_rebuild_despite_fresh_cex :
    _latest_mtime staleStateA.dataDir ≤ _read_cached_build_time staleStateA ∧
    (get_index_and_engine staleStateA).2.buildCount = staleStateA.buildCount + 1 :=
  ⟨by decide, rfl⟩

/-- C1 (amended): if the document folder's newest mtime is at most the cached
build time AND is nonnegative, `get_index_and_engine` does not take the
build-and-persist path: the build counter and the storage folder are
unchanged, and any returned index is the in-memory one or the one loaded from
disk. -/
theorem get_no_rebuild_when_fresh (s : AppState)
    (h1 : _latest_mtime s.dataDir ≤ _read_cached_build_time s)
    (h2 : 0 ≤ _latest_mtime s.dataDir) :
    (get_index_and_engine s).2.buildCount = s.buildCount ∧
    (get_index_and_engine s).2.persistDir = s.persistDir ∧
    ∀ p, (get_index_and_engine s).1 = .ok p →
      p.1 = s._index ∨ p.1 = _load_index_from_disk s := by
  by_cases hi : s._index.isSome = true
  · rw [get_eq_memo s hi h1]
    refine ⟨rfl, rfl, ?_⟩
    intro p hp
    injection hp with hh
    left; rw [← hh]
  · have hA : ¬(s._index.isSome = true ∧
        _latest_mtime s.dataDir ≤ _read_cached_build_time s) :=
      fun hc => hi hc.1
    by_cases hpc : s.persistDir.isSome = true ∧ checkFileExists s = true
    · have hB : s.persistDir.isSome = true ∧ checkFileExists s = true ∧
          _latest_mtime s.dataDir ≤ _read_cached_build_time s :=
        ⟨hpc.1, hpc.2, h1⟩
      cases hld : _load_index_from_disk s with
      | none =>
        rw [get_eq_load_none s hA hB hld]
        exact ⟨rfl, rfl, fun p hp => Except.noConfusion hp⟩
      | some ix =>
        rw [get_eq_load_some s ix hA hB hld]
        refine ⟨rfl, rfl, ?_⟩
        intro p hp
        injection hp with hh
        subst hh
        right
        rfl
    · have hB' : ¬(s.persistDir.isSome = true ∧ checkFileExists s = true ∧
          _latest_mtime s.dataDir ≤ _read_cached_build_time s) :=
        fun hc => hpc ⟨hc.1, hc.2.1⟩
      have hr0 : _read_cached_build_time s = 0 :=
        read_eq_zero_of_no_marker s hB' h1
      have hdm : _latest_mtime s.dataDir = 0 := le_antisymm (hr0 ▸ h1) h2
      rw [get_eq_nodata s hA hB' (Or.inr hdm)]
      refine ⟨rfl, rfl, ?_⟩
      intro p hp
      injection hp with hh
      left; rw [← hh]
      cases hx : s._index with
      | none => rfl
      | some v => rw [hx] at hi; simp at hi

/-- A fresh state: one file at mtime 1, marker at 2, a persisted index. -/
def freshStateA : AppState :=
  ⟨some [Entry.file "a" 1], some ⟨some (.num 2), some ⟨[]⟩⟩, none, none, 0⟩

/-- Witness for C1 (amended) at `freshStateA`. -/
theorem get_no_rebuild_when_fresh_witness :
    (get_index_and_engine freshStateA).2.buildCount = 0 :=
  (get_no_rebuild_when_fresh freshStateA (by decide) (by decide)).1

/-- A state with one file at mtime 0 (legal: the epoch) whose marker parses to
−1, so the data looks newer than the cache. -/
def staleStateB : AppState :=
  ⟨some [Entry.file "a" 0], some ⟨some (.num (-1)), none⟩, none, none, 0⟩

/-- C2 counterexample: at `staleStateB` the newest data mtime (0) strictly
exceeds the cached build time (−1) and the folder contains one file, yet
`get_index_and_engine` takes the no-data path: nothing is rebuilt, persisted
or written. -/
theorem get_no_rebuild_despite_stale_cex :
    _read_cached_build_time staleStateB < _latest_mtime staleStateB.dataDir ∧
    (load_data staleStateB.dataDir).length = 1 ∧
    (get_index_and_engine staleStateB).2.buildCount = staleStateB.buildCount ∧
    (get_index_and_engine staleStateB).2.persistDir = staleStateB.persistDir ∧
    (get_index_and_engine staleStateB).1 = .ok (none, none) :=
  ⟨by decide, rfl, rfl, rfl, rfl⟩

/-- C2 (amended): if the document folder's newest mtime strictly exceeds the
cached build time and is nonzero, `get_index_and_engine` rebuilds: the build
counter goes up by one, the rebuilt index is persisted together with a marker
recording the folder's newest mtime, and reading the cache back gives that
mtime; the rebuilt pair is returned. -/
theorem get_rebuilds_when_stale (s : AppState)
    (h1 : _read_cached_build_time s < _latest_mtime s.dataDir)
    (h2 : _latest_mtime s.dataDir ≠ 0) :
    (get_index_and_engine s).2.buildCount = s.buildCount + 1 ∧
    (get_index_and_engine s).2.persistDir =
      some ⟨some (.num (_latest_mtime s.dataDir)), some ⟨load_data s.dataDir⟩⟩ ∧
    _read_cached_build_time (get_index_and_engine s).2 = _latest_mtime s.dataDir ∧
    (get_index_and_engine s).1 =
      .ok (some ⟨load_data s.dataDir⟩, some (as_query_engine ⟨load_data s.dataDir⟩)) := by
  have hnle : ¬(_latest_mtime s.dataDir ≤ _read_cached_build_time s) :=
    not_le.mpr h1
  have hA : ¬(s._index.isSome = true ∧
      _latest_mtime s.dataDir ≤ _read_cached_build_time s) :=
    fun hc => hnle hc.2
  have hB : ¬(s.persistDir.isSome = true ∧ checkFileExists s = true ∧
      _latest_mtime s.dataDir ≤ _read_cached_build_time s) :=
    fun hc => hnle hc.2.2
  have hC : ¬(s.dataDir.isNone = true ∨ _latest_mtime s.dataDir = 0) := by
    rintro (h | h)
    · exact h2 (latest_of_none s h)
    · exact h2 h
  rw [get_eq_build s hA hB hC]
  exact ⟨rfl, rfl, rfl, rfl⟩

/-- A stale state: one file at mtime 5 and no storage folder at all. -/
def staleStateC : AppState := ⟨some [Entry.file "a" 5], none, none, none, 0⟩

/-- Witness for C2 (amended) at `staleStateC`. -/
theorem get_rebuilds_when_stale_witness :
    (get_index_and_engine staleStateC).2.buildCount = 1 ∧
    _read_cached_build_time (get_index_and_engine staleStateC).2 = 5 := by
  have h := get_rebuilds_when_stale staleStateC (by decide) (by decide)
  exact ⟨h.1, h.2.2.1.trans rfl⟩

/-- C10: provided the two globals `_index` and `_query_engine` are both set or
both unset (they start out both `None` and every branch keeps them in step),
the pair returned by `get_index_and_engine` has both components null or both
non-null, and the resulting state keeps the globals in step. -/
theorem get_pair_none_together (s : AppState)
    (h : s._index.isSome = s._query_engine.isSome) :
    (∀ p, (get_index_and_engine s).1 = .ok p → p.1.isSome = p.2.isSome) ∧
    (get_index_and_engine s).2._index.isSome =
      (get_index_and_engine s).2._query_engine.isSome := by
  by_cases hA : s._index.isSome = true ∧
      _latest_mtime s.dataDir ≤ _read_cached_build_time s
  · rw [get_eq_memo s hA.1 hA.2]
    refine ⟨?_, h⟩
    intro p hp
    injection hp with hh
    rw [← hh]; exact h
  · by_cases hB : s.persistDir.isSome = true ∧ checkFileExists s = true ∧
        _latest_mtime s.dataDir ≤ _read_cached_build_time s
    · cases hld : _load_index_from_disk s with
      | none =>
        rw [get_eq_load_none s hA hB hld]
        exact ⟨fun p hp => Except.noConfusion hp, h⟩
      | some ix =>
        rw [get_eq_load_some s ix hA hB hld]
        refine ⟨?_, rfl⟩
        intro p hp
        injection hp with hh
        subst hh
        rfl
    · by_cases hC : s.dataDir.isNone = true ∨ _latest_mtime s.dataDir = 0
      · rw [get_eq_nodata s hA hB hC]
        refine ⟨?_, rfl⟩
        intro p hp
        injection hp with hh
        subst hh
        rfl
      · rw [get_eq_build s hA hB hC]
        refine ⟨?_, rfl⟩
        intro p hp
        injection hp with hh
        subst hh
        rfl

/-- Witness for C10 at the startup state (both globals `None`). -/
theorem get_pair_none_together_witness :
    (get_index_and_engine ⟨none, none, none, none, 0⟩).2._index.isSome =
      (get_index_and_engine ⟨none, none, none, none, 0⟩).2._query_engine.isSome :=
  (get_pair_none_together ⟨none, none, none, none, 0⟩ rfl).2

/-- C6: a POST whose question is blank after stripping leaves the transcript
unchanged and redirects, provided the request completes (no exception
propagates out of `get_index_and_engine`). -/
theorem blank_question_keeps_transcript
    (oracle : QueryEngine → String → QueryResult) (s : AppState)
    (sess : Option (List QA)) (q : String)
    (hq : strip q = "")
    (hok : ∃ p, (get_index_and_engine s).1 = .ok p) :
    home oracle .POST (some q) s sess =
      (.ok .redirect, (get_index_and_engine s).2, some (sess.getD [])) := by
  obtain ⟨⟨i, e⟩, hp⟩ := hok
  simp [home, hp, hq]

/-- Witness for C6: a whitespace-only question on the empty startup state. -/
theorem blank_question_keeps_transcript_witness :
    home (fun _ _ => .ok "") .POST (some " ") ⟨none, none, none, none, 0⟩ none =
      (.ok .redirect, ⟨none, none, none, none, 0⟩, some []) :=
  blank_question_keeps_transcript (fun _ _ => .ok "") ⟨none, none, none, none, 0⟩
    none " " (by decide) ⟨(none, none), rfl⟩

/-- C7: a POST with a non-blank question while the query engine is `None`
appends exactly one pair whose answer is the fixed no-data message, then
redirects. -/
theorem no_data_fixed_answer
    (oracle : QueryEngine → String → QueryResult) (s : AppState)
    (sess : Option (List QA)) (q : String) (i : Option Index)
    (hq : ¬(strip q = ""))
    (hok : (get_index_and_engine s).1 = .ok (i, none)) :
    home oracle .POST (some q) s sess =
      (.ok .redirect, (get_index_and_engine s).2,
        some (sess.getD [] ++
          [⟨strip q, "No data found in /data folder. Add files and refresh."⟩])) := by
  simp [home, hok, hq]

/-- Witness for C7: question "hello" against the empty startup state. -/
theorem no_data_fixed_answer_witness :
    home (fun _ _ => .ok "") .POST (some "hello") ⟨none, none, none, none, 0⟩ none =
      (.ok .redirect, ⟨none, none, none, none, 0⟩,
        some [⟨"hello", "No data found in /data folder. Add files and refresh."⟩]) :=
  no_data_fixed_answer (fun _ _ => .ok "") ⟨none, none, none, none, 0⟩ none
    "hello" none (by decide) rfl

/-- C8: if the engine's query raises, the handler catches the exception,
appends "Query error: " followed by the message as the answer, and still
completes with a redirect (the result is `.ok`, nothing propagates). -/
theorem query_exception_caught
    (oracle : QueryEngine → String → QueryResult) (s : AppState)
    (sess : Option (List QA)) (q : String) (i : Option Index)
    (qe : QueryEngine) (m : String)
    (hq : ¬(strip q = ""))
    (hok : (get_index_and_engine s).1 = .ok (i, some qe))
    (hx : oracle qe (strip q) = .exn m) :
    home oracle .POST (some q) s sess =
      (.ok .redirect, (get_index_and_engine s).2,
        some (sess.getD [] ++ [⟨strip q, "Query error: " ++ m⟩])) := by
  simp [home, hok, hq, hx]

/-- Witness for C8: at `freshStateA` the engine is loaded from disk and the
oracle raises "boom". -/
theorem query_exception_caught_witness :
    home (fun _ _ => .exn "boom") .POST (some "hi") freshStateA none =
      (.ok .redirect, (get_index_and_engine freshStateA).2,
        some [⟨"hi", "Query error: " ++ "boom"⟩]) :=
  query_exception_caught (fun _ _ => .exn "boom") freshStateA none "hi"
    (some ⟨[]⟩) (as_query_engine ⟨[]⟩) "boom" (by decide) rfl rfl
